import Mathlib

/-!
Shallow embedding of the IMYME AI server core (ai_server/app), covering:

* the analysis orchestrator (`app/services/analysis_service.py`,
  `AnalysisService.analyze_text_background`) together with its error
  classification and the sequence of Task Store writes it performs;
* the knowledge refinement pipeline
  (`app/services/knowledge_service.py`, `KnowledgeService.refine_candidates_batch`);
* the knowledge evaluation engine
  (`app/services/knowledge_service.py`, `KnowledgeService.evaluate_knowledge`);
* the two knowledge HTTP handlers
  (`app/api/v1/endpoints/knowledge.py`).

External providers (Gemini reasoning calls, the sentence-transformer
embedding model) are modelled as environment records supplying, per call,
either a successful payload or a raised Python exception.  Prompt
construction is not modelled (the spec, §1, places prompt wording out of
scope and no claim depends on it).  The Task Store implementation file
(`app/services/task_store.py`) is not part of the provided sources; per the
spec (§4.1) each `save_task` call is a serialized write of a full record,
so the orchestrator is modelled as producing the ordered sequence of
records it writes.
-/

namespace AIServer

/-- Lowercasing as used by Python's `str.lower()` on the ASCII range
(`error_msg = str(e).lower()` in `analysis_service.py`).  `Char.toLower`
lowers only ASCII letters; the substrings inspected by the classifier are
all ASCII, so this matches the source on every input that matters. -/
def pyLower (s : String) : String :=
  String.mk (s.data.map Char.toLower)

/-- Python's `str.strip()` whitespace test (ASCII whitespace; the inputs
the claims evaluate contain no exotic Unicode whitespace). -/
def pyIsSpace (c : Char) : Bool :=
  c = ' ' || c = Char.ofNat 9 || c = Char.ofNat 10 || c = Char.ofNat 13 ||
    c = Char.ofNat 11 || c = Char.ofNat 12

/-- Python's `str.strip()`: drop leading and trailing whitespace.  Defined
structurally over the character list (rather than through `String.trim`,
whose well-founded recursion does not reduce) so concrete inputs
evaluate. -/
def pyStrip (s : String) : String :=
  String.mk (((s.data.dropWhile pyIsSpace).reverse.dropWhile pyIsSpace).reverse)

/-- Substring test, modelling Python's `"pat" in s` operator. -/
def strContains (s pat : String) : Bool :=
  decide (List.IsInfix pat.toList s.toList)

/-- Error codes from `app/core/errors.py` (`class ErrorCode(str, Enum)`).

`INVALID_CRITERIA` is referenced by `analysis_service.py` (line 37) but is
absent from `errors.py`; it is kept here as a distinct constructor so that
the criteria-validation write can be stated.  At runtime the missing member
raises `AttributeError`, the generic handler catches it and the record is
written as FAILED with `INTERNAL_ERROR` instead — under either reading the
terminal status of that write is FAILED, which is all the theorems below
use about it. -/
inductive ErrorCode where
  | INVALID_URL
  | UNSUPPORTED_FORMAT
  | STT_FAILURE
  | DOWNLOAD_FAILURE
  | TASK_NOT_FOUND
  | MISSING_CONTEXT
  | INVALID_JSON
  | EMPTY_BATCH_DATA
  | TEXT_TOO_LONG
  | INVALID_LLM_RESPONSE
  | VALIDATION_ERROR
  | AUTH_ERROR
  | INTERNAL_ERROR
  | LLM_PROVIDER_ERROR
  | EMBEDDING_FAILURE
  | VECTOR_DIM_MISMATCH
  | STT_TIMEOUT
  | GPU_FAIL
  | INVALID_CRITERIA
  deriving DecidableEq, Repr

/-- The `.value` string of each `ErrorCode` member (`str, Enum` mixin). -/
def ErrorCode.value : ErrorCode → String
  | .INVALID_URL => "INVALID_URL"
  | .UNSUPPORTED_FORMAT => "UNSUPPORTED_FORMAT"
  | .STT_FAILURE => "STT_FAILURE"
  | .DOWNLOAD_FAILURE => "DOWNLOAD_FAILURE"
  | .TASK_NOT_FOUND => "TASK_NOT_FOUND"
  | .MISSING_CONTEXT => "MISSING_CONTEXT"
  | .INVALID_JSON => "INVALID_JSON"
  | .EMPTY_BATCH_DATA => "EMPTY_BATCH_DATA"
  | .TEXT_TOO_LONG => "TEXT_TOO_LONG"
  | .INVALID_LLM_RESPONSE => "INVALID_LLM_RESPONSE"
  | .VALIDATION_ERROR => "VALIDATION_ERROR"
  | .AUTH_ERROR => "AUTH_ERROR"
  | .INTERNAL_ERROR => "INTERNAL_ERROR"
  | .LLM_PROVIDER_ERROR => "LLM_PROVIDER_ERROR"
  | .EMBEDDING_FAILURE => "EMBEDDING_FAILURE"
  | .VECTOR_DIM_MISMATCH => "VECTOR_DIM_MISMATCH"
  | .STT_TIMEOUT => "STT_TIMEOUT"
  | .GPU_FAIL => "GPU_FAIL"
  | .INVALID_CRITERIA => "INVALID_CRITERIA"

/-- A raised Python exception, as observed by the `except` handlers in the
source: either an `AppException` (`app/core/errors.py`, carrying a
structured code and message) or any other exception carrying only its
`str(e)` text. -/
inductive PyErr where
  | appExc (code : ErrorCode) (message : String)
  | exc (text : String)
  deriving DecidableEq, Repr

/-- The `str(e)` text of an exception.  `AppException.__init__` passes
`self.message` to `Exception.__init__`, so `str` of an `AppException` is
its message. -/
def PyErr.text : PyErr → String
  | .appExc _ m => m
  | .exc t => t

/-- A JSON-ish value, just rich enough for the payloads the claims touch
(string fields, string-list fields, integers). -/
inductive JVal where
  | s (v : String)
  | arr (vs : List String)
  | n (v : Int)
  deriving DecidableEq, Repr

/-- A parsed JSON object, modelled as an association list. -/
abbrev JDict := List (String × JVal)

/-! ## Analysis orchestrator (`app/services/analysis_service.py`) -/

/-- Outcome of `scoring_service.evaluate` (`app/services/scoring_service.py`):
on success a dict `{"overall_score": int, "level": int}` (defaults 0 and 1
applied inside the service while parsing provider JSON). -/
structure ScoreResult where
  overall_score : Int
  level : Int
  deriving DecidableEq, Repr

/-- The aggregate stored on COMPLETED:
`{"overall_score": ..., "level": ..., "feedback": ...}` where `feedback`
is the dict produced by `feedback_service.generate_feedback` (or the
hard-coded short-text payload). -/
structure AnalysisResult where
  overall_score : Int
  level : Int
  feedback : JDict
  deriving DecidableEq, Repr

/-- The structured `error` payload written on FAILED:
`{"code": ..., "message": ...}`. -/
structure TaskError where
  code : ErrorCode
  message : String
  deriving DecidableEq, Repr

/-- One `task_store.save_task(task_id, status, result=..., error=...)` call.
Modelled from the spec: `app/services/task_store.py` is not among the
provided sources; spec §4.1 specifies `update(key, status, result?, error?)`
as a serialized full-record write, so a write is the record it stores. -/
structure TaskWrite where
  task_id : String
  status : String
  result : Option AnalysisResult := none
  error : Option TaskError := none
  deriving DecidableEq, Repr

/-- Per-run provider outcomes for the orchestrator.  `scoring` and
`feedback` are the outcomes of the two concurrently awaited coroutines;
`firstErrorScoring` resolves which exception `asyncio.gather` surfaces in
the (timing-dependent) case where both fail — irrelevant whenever at most
one fails. -/
structure RunEnv where
  scoring : Except PyErr ScoreResult
  feedback : Except PyErr JDict
  firstErrorScoring : Bool

/-- `await asyncio.gather(score_task, feedback_task)` with the default
`return_exceptions=False`: both results on joint success, otherwise the
raised exception (the failing branch's when exactly one fails). -/
def gatherOutcome (env : RunEnv) : Except PyErr (ScoreResult × JDict) :=
  match env.scoring, env.feedback with
  | .ok s, .ok f => .ok (s, f)
  | .error e, .ok _ => .error e
  | .ok _, .error e => .error e
  | .error e₁, .error e₂ => .error (if env.firstErrorScoring then e₁ else e₂)

/-- The hard-coded result written on the short-text fast path
(`analysis_service.py`, lines 50-60). -/
def shortTextResult : AnalysisResult :=
  { overall_score := 0
    level := 1
    feedback :=
      [("summarize", .s "입력된 내용이 너무 짧거나 인식이 되지 않았습니다."),
       ("keyword", .arr ["음성 인식 실패", "짧은 답변"]),
       ("facts", .s "분석할 텍스트가 부족합니다."),
       ("understanding", .s "사용자의 의도를 파악하기 어렵습니다."),
       ("personalized", .s "조금 더 길게 말씀해주시거나, 다시 시도 부탁드립니다.")] }

/-- The exception classifier in the orchestrator's handler
(`analysis_service.py`, lines 90-96): substring heuristics over
`str(e).lower()`. -/
def classifyError (e : PyErr) : ErrorCode :=
  let error_msg := pyLower e.text
  if strContains error_msg "llm" || strContains error_msg "gemini" ||
      strContains error_msg "500" then
    ErrorCode.LLM_PROVIDER_ERROR
  else if strContains error_msg "embedding" || strContains error_msg "vector" then
    ErrorCode.EMBEDDING_FAILURE
  else
    ErrorCode.INTERNAL_ERROR

/-- The user-facing message written on FAILED by the handler:
`f"분석 처리 중 오류가 발생했습니다. ({code.value})"`. -/
def failureMessage (code : ErrorCode) : String :=
  "분석 처리 중 오류가 발생했습니다. (" ++ code.value ++ ")"

/-- What one background run produced: the ordered Task Store writes after
the initial PROCESSING transition, and how many reasoning-provider calls
were launched (two — scoring and feedback — iff the concurrent phase was
reached; the orchestrator itself never calls the embedding provider). -/
structure AnalyzeOutcome where
  writes : List TaskWrite
  providerCalls : Nat
  deriving DecidableEq, Repr

/-- `AnalysisService.analyze_text_background(task_id, user_text, criteria,
history)`: PROCESSING write, then (in source order) the `not criteria`
validation branch, the short-text fast path (`len(user_text.strip()) < 5`),
and otherwise the concurrent scoring+feedback phase whose joint success is
aggregated into COMPLETED and whose failure is classified and written as
FAILED.  (On the criteria branch the source names
`ErrorCode.INVALID_CRITERIA`; see the `ErrorCode` doc for the runtime
reading — the status of that write is FAILED either way.) -/
def analyze_text_background (env : RunEnv) (task_id user_text : String)
    (criteria : JDict) (history : List JDict) : AnalyzeOutcome :=
  let processing : TaskWrite := { task_id := task_id, status := "PROCESSING" }
  if criteria.isEmpty then
    { writes := [processing,
        { task_id := task_id, status := "FAILED",
          error := some { code := .INVALID_CRITERIA,
                          message := "분석 기준(Criteria)이 누락되었습니다." } }]
      providerCalls := 0 }
  else if (pyStrip user_text).length < 5 then
    { writes := [processing,
        { task_id := task_id, status := "COMPLETED", result := some shortTextResult }]
      providerCalls := 0 }
  else
    match gatherOutcome env with
    | .ok (score_result, feedback_result) =>
      { writes := [processing,
          { task_id := task_id, status := "COMPLETED",
            result := some { overall_score := score_result.overall_score,
                             level := score_result.level,
                             feedback := feedback_result } }]
        providerCalls := 2 }
    | .error e =>
      let code := classifyError e
      { writes := [processing,
          { task_id := task_id, status := "FAILED",
            error := some { code := code, message := failureMessage code } }]
        providerCalls := 2 }

/-! ## Knowledge refinement pipeline
(`app/services/knowledge_service.py`, `refine_candidates_batch`) -/

/-- A raw feedback item (`RawFeedbackItem` of `app/schemas/knowledge.py`).
Modelled from the spec: the schemas file is not among the provided sources;
spec §3 gives the fields (id, keyword, raw text) and the service accesses
exactly `item.id`, `item.keyword`, `item.rawFeedback`. -/
structure RawFeedbackItem where
  id : Nat
  keyword : String
  rawFeedback : String
  deriving DecidableEq, Repr

/-- A knowledge candidate (`KnowledgeCandidate` of `app/schemas/knowledge.py`).
Modelled from the spec: spec §3 — identity is the source item id, plus
keyword, refined text and embedding vector.  The vector component type is
irrelevant to every claim (no arithmetic on components occurs anywhere in
the modelled code), so vectors are `List Int` here rather than a float
type. -/
structure KnowledgeCandidate where
  id : Nat
  keyword : String
  refinedText : String
  embedding : List Int
  deriving DecidableEq, Repr

/-- The wrapped batch payload (`RefineCandidatesResponseData`). -/
structure RefineCandidatesResponseData where
  processedCount : Nat
  candidates : List KnowledgeCandidate
  deriving DecidableEq, Repr

/-- Per-call provider outcomes for the refinement pipeline: the reasoning
call that normalizes one item's raw text (returning `response.text`), and
the embedding call on a given text. -/
structure RefineEnv where
  refineText : RawFeedbackItem → Except PyErr String
  embed : String → Except PyErr (List Int)

/-- The inner `process_item` coroutine of `refine_candidates_batch`
(`knowledge_service.py`, lines 47-70): refine, strip, embed, build the
candidate; any raised exception is caught and turns the item into `None`. -/
def process_item (env : RefineEnv) (item : RawFeedbackItem) :
    Option KnowledgeCandidate :=
  match env.refineText item with
  | .error _ => none
  | .ok t =>
    let refined_text := pyStrip t
    match env.embed refined_text with
    | .error _ => none
    | .ok embedding =>
      some { id := item.id, keyword := item.keyword,
             refinedText := refined_text, embedding := embedding }

/-- `KnowledgeService.refine_candidates_batch(items)`
(`knowledge_service.py`, lines 38-81): fan out `process_item` over all
items (`asyncio.gather` keeps results in input position order), drop the
`None` entries, and report `processedCount = len(candidates)`. -/
def refine_candidates_batch (env : RefineEnv) (items : List RawFeedbackItem) :
    RefineCandidatesResponseData :=
  let processed_results := items.map (process_item env)
  let candidates := processed_results.filterMap id
  { processedCount := candidates.length, candidates := candidates }

/-- The number of items of a batch whose per-item pipeline fails (either
provider call raising), i.e. that `process_item` maps to `None`. -/
def failCount (env : RefineEnv) (items : List RawFeedbackItem) : Nat :=
  (items.filter (fun i => (process_item env i).isNone)).length

/-! ## Knowledge evaluation engine
(`app/services/knowledge_service.py`, `evaluate_knowledge`) -/

/-- The decision enum (`KnowledgeAction` of `app/schemas/knowledge.py`).
Modelled from the spec: the schemas file is not among the provided
sources; spec §3 fixes the closed member set {UPDATE, IGNORE}. -/
inductive KnowledgeAction where
  | UPDATE
  | IGNORE
  deriving DecidableEq, Repr

/-- The enum constructor `KnowledgeAction(decision_str)`: the member with
that value, or `none` modelling the `ValueError` raised for a string
outside the closed member set. -/
def KnowledgeAction.ofValue? (s : String) : Option KnowledgeAction :=
  if s = "UPDATE" then some .UPDATE
  else if s = "IGNORE" then some .IGNORE
  else none

/-- One element of the provider's parsed `results` array, with the four
fields the engine reads via `.get`; `none` models an absent key.
`targetId` holds the value after the source's `str(...)` conversion of any
non-null raw value; `finalContent` is modelled as a string when present
(the only shape the prompt requests and the only one any claim touches). -/
structure ResultItem where
  decision : Option String
  targetId : Option String
  finalContent : Option String
  reasoning : Option String
  deriving DecidableEq, Repr

/-- The provider's response for one evaluation call, after the
`replace`/`strip` cleanup: either `json.loads` fails, or it yields an
object whose `results` array (`data.get("results", [])`, absent key giving
`[]`) is this list. -/
inductive LLMResponse where
  | unparseable
  | parsed (results : List ResultItem)

/-- One per-target evaluation result (`KnowledgeEvaluationResult` of
`app/schemas/knowledge.py`).  Modelled from the spec: spec §3 gives the
fields; the engine constructs exactly these. -/
structure KnowledgeEvaluationResult where
  decision : KnowledgeAction
  targetId : Option String
  finalContent : Option String
  finalVector : Option (List Int)
  reasoning : String
  deriving DecidableEq, Repr

/-- The ordered batch of per-target results. -/
structure BatchKnowledgeEvaluationResult where
  results : List KnowledgeEvaluationResult
  deriving DecidableEq, Repr

/-- Per-call provider outcomes for the evaluation engine: the single
reasoning call (which may raise, or return text that does or does not
parse), and the embedding call on a given final content. -/
structure EvalEnv where
  providerOutcome : Except PyErr LLMResponse
  embed : String → Except PyErr (List Int)

/-- The candidate input (`EvaluateCandidateInput`): the engine and the
endpoint read only `candidate.text`.  Modelled from the spec (schemas file
absent). -/
structure EvaluateCandidateInput where
  text : String
  deriving DecidableEq, Repr

/-- One similar entry (`EvaluateSimilarInput`): read only while building
the prompt (id, keyword, similarity, text), which is out of scope; the
similarity score is omitted since no modelled computation reads it.
Modelled from the spec (schemas file absent). -/
structure EvaluateSimilarInput where
  id : Nat
  keyword : String
  text : String
  deriving DecidableEq, Repr

/-- The decision actually assigned to one result entry
(`knowledge_service.py`, lines 129-136): the `decision` key with default
`"IGNORE"`, passed through the enum constructor, with the `ValueError`
branch coercing to IGNORE. -/
def decisionOf (item : ResultItem) : KnowledgeAction :=
  (KnowledgeAction.ofValue? (item.decision.getD "IGNORE")).getD .IGNORE

/-- Truthiness of the `finalContent` value (`if decision == ... and
final_content:`): present and non-empty. -/
def truthyContent : Option String → Bool
  | some c => !(c = "")
  | none => false

/-- Processing of one element of the `results` array
(`knowledge_service.py`, lines 127-156): coerce the decision, embed the
final content only when the decision is UPDATE and the content is truthy
(an embedding failure raising out of the loop), and build the result.
Alongside the result, the list of texts actually sent to the embedding
provider for this entry is returned, so that theorems can speak about
which calls were made. -/
def processEvalItem (embed : String → Except PyErr (List Int))
    (item : ResultItem) :
    Except PyErr (KnowledgeEvaluationResult × List String) :=
  let decision := decisionOf item
  let base : KnowledgeEvaluationResult :=
    { decision := decision, targetId := item.targetId,
      finalContent := item.finalContent, finalVector := none,
      reasoning := item.reasoning.getD "" }
  match decision, item.finalContent with
  | .UPDATE, some c =>
    if c = "" then .ok (base, [])
    else
      match embed c with
      | .error e => .error e
      | .ok v => .ok ({ base with finalVector := some v }, [c])
  | _, _ => .ok (base, [])

/-- The `for result_item in results_data` loop: entries processed in
order, the first raised exception escaping the loop. -/
def processEvalResults (embed : String → Except PyErr (List Int)) :
    List ResultItem → Except PyErr (List KnowledgeEvaluationResult × List String)
  | [] => .ok ([], [])
  | item :: rest =>
    match processEvalItem embed item with
    | .error e => .error e
    | .ok (r, calls) =>
      match processEvalResults embed rest with
      | .error e => .error e
      | .ok (rs, cs) => .ok (r :: rs, calls ++ cs)

/-- `KnowledgeService.evaluate_knowledge(candidate, similars)`
(`knowledge_service.py`, lines 83-162): one reasoning call; a cleanup
that fails to parse raises `ValueError("INVALID_LLM_RESPONSE")`; an empty
(or absent) `results` array returns an empty batch; otherwise the entries
are processed in order.  The outer handler re-raises every exception
unchanged.  The second component of a successful return is the trace of
embedding-provider inputs. -/
def evaluate_knowledge (env : EvalEnv) (candidate : EvaluateCandidateInput)
    (similars : List EvaluateSimilarInput) :
    Except PyErr (BatchKnowledgeEvaluationResult × List String) :=
  match env.providerOutcome with
  | .error e => .error e
  | .ok .unparseable => .error (.exc "INVALID_LLM_RESPONSE")
  | .ok (.parsed results_data) =>
    if results_data.isEmpty then .ok ({ results := [] }, [])
    else
      match processEvalResults env.embed results_data with
      | .error e => .error e
      | .ok (processed_results, calls) =>
        .ok ({ results := processed_results }, calls)

/-! ## Knowledge endpoints (`app/api/v1/endpoints/knowledge.py`) -/

/-- The refine-batch HTTP payload (`RefineCandidatesResponse`): success
flag, data, optional `{code, message}` error. -/
structure RefineCandidatesResponse where
  success : Bool
  data : RefineCandidatesResponseData
  error : Option TaskError
  deriving DecidableEq, Repr

/-- `refine_candidates_batch` endpoint (`knowledge.py`, lines 20-57): an
empty `items` list is answered synchronously with EMPTY_BATCH_DATA before
the pipeline is invoked; otherwise the pipeline runs (its per-item
containment means the model's pipeline cannot raise, so the handler's two
`except` branches are unreachable here).  The second component counts
pipeline invocations. -/
def refine_candidates_batch_endpoint (env : RefineEnv)
    (items : List RawFeedbackItem) : RefineCandidatesResponse × Nat :=
  if items.isEmpty then
    ({ success := false,
       data := { processedCount := 0, candidates := [] },
       error := some { code := .EMPTY_BATCH_DATA,
                       message := "입력 데이터가 비어있습니다." } }, 0)
  else
    ({ success := true, data := refine_candidates_batch env items,
       error := none }, 1)

/-- The `data` field of the evaluation HTTP payload: a successful call
carries the batch, every failure path carries a single placeholder
result. -/
inductive EvalRespData where
  | batch (b : BatchKnowledgeEvaluationResult)
  | single (r : KnowledgeEvaluationResult)
  deriving DecidableEq, Repr

/-- The evaluation HTTP payload (`KnowledgeEvaluationResponse`). -/
structure KnowledgeEvaluationResponse where
  success : Bool
  data : EvalRespData
  error : Option TaskError
  deriving DecidableEq, Repr

/-- The evaluation request (`KnowledgeEvaluationRequest`): candidate plus
similar set.  Modelled from the spec (schemas file absent). -/
structure KnowledgeEvaluationRequest where
  candidate : EvaluateCandidateInput
  similars : List EvaluateSimilarInput
  deriving DecidableEq, Repr

/-- `str(e.code)` as used for the placeholder's `reasoning` in the
`AppException` branch of the endpoint (Python renders an enum member as
`ErrorCode.NAME`).  No claim depends on this string. -/
def strOfErrorCode (c : ErrorCode) : String :=
  "ErrorCode." ++ c.value

/-- `evaluate_knowledge` endpoint (`knowledge.py`, lines 61-108): candidate
text longer than 5000 characters is answered synchronously with
TEXT_TOO_LONG and a placeholder IGNORE result before the engine is
invoked; otherwise the engine runs and its outcome is wrapped, with an
`AppException` echoed as its own code/message and any other exception
mapped to INTERNAL_ERROR.  The second component counts engine
invocations. -/
def evaluate_knowledge_endpoint (env : EvalEnv)
    (request : KnowledgeEvaluationRequest) :
    KnowledgeEvaluationResponse × Nat :=
  if request.candidate.text.length > 5000 then
    ({ success := false,
       data := .single { decision := .IGNORE, targetId := none,
                         finalContent := none, finalVector := none,
                         reasoning := "Validation Failed" },
       error := some { code := .TEXT_TOO_LONG,
                       message := "텍스트 길이가 제한을 초과했습니다." } }, 0)
  else
    match evaluate_knowledge env request.candidate request.similars with
    | .ok (result, _) =>
      ({ success := true, data := .batch result, error := none }, 1)
    | .error (.appExc code message) =>
      ({ success := false,
         data := .single { decision := .IGNORE, targetId := none,
                           finalContent := none, finalVector := none,
                           reasoning := strOfErrorCode code },
         error := some { code := code, message := message } }, 1)
    | .error (.exc _) =>
      ({ success := false,
         data := .single { decision := .IGNORE, targetId := none,
                           finalContent := none, finalVector := none,
                           reasoning := "Internal Error" },
         error := some { code := .INTERNAL_ERROR,
                         message := "평가 처리 중 예상치 못한 오류가 발생했습니다." } }, 1)

/-- The embedding-provider inputs one result entry gives rise to: exactly
the truthy final content of an entry whose coerced decision is UPDATE,
nothing otherwise.  (Statement-side characterization of the call trace
instrumented in `processEvalItem`.) -/
def embedRequests (item : ResultItem) : List String :=
  match decisionOf item, item.finalContent with
  | .UPDATE, some c => if c = "" then [] else [c]
  | _, _ => []

/-! ## Helper lemmas -/

theorem isEmpty_false_of_ne_nil {α : Type} {l : List α} (h : l ≠ []) :
    l.isEmpty = false := by
  cases l with
  | nil => exact absurd rfl h
  | cons a l => rfl

theorem refine_length_aux {α β : Type} (f : α → Option β) (l : List α) :
    (l.filterMap f).length +
      (l.filter fun a => (f a).isNone).length = l.length := by
  induction l with
  | nil => rfl
  | cons a l ih =>
    cases h : f a with
    | none => simp [List.filterMap_cons, h, List.filter_cons]; omega
    | some b => simp [List.filterMap_cons, h, List.filter_cons]; omega

theorem process_item_id (env : RefineEnv) (i : RawFeedbackItem)
    (c : KnowledgeCandidate) (h : process_item env i = some c) : c.id = i.id := by
  simp only [process_item] at h
  cases hr : env.refineText i with
  | error e => rw [hr] at h; simp at h
  | ok t =>
    rw [hr] at h
    cases he : env.embed (pyStrip t) with
    | error e => simp only [he] at h; simp at h
    | ok v =>
      simp only [he, Option.some.injEq] at h
      subst h
      rfl

theorem refine_ids_aux (env : RefineEnv) (l : List RawFeedbackItem) :
    (l.filterMap (process_item env)).map KnowledgeCandidate.id =
      (l.filter fun i => (process_item env i).isSome).map RawFeedbackItem.id := by
  induction l with
  | nil => rfl
  | cons a l ih =>
    cases h : process_item env a with
    | none => simp [List.filter_cons, h, ih]
    | some c =>
      have hid : c.id = a.id := process_item_id env a c h
      simp [List.filter_cons, h, ih, hid]

/-- The per-entry relationship the evaluation engine establishes between a
parsed provider result item and the emitted result: fields carried over,
the coerced decision, and the conditional `finalVector`. -/
def evalEntrySpec (embed : String → Except PyErr (List Int))
    (item : ResultItem) (r : KnowledgeEvaluationResult) : Prop :=
  r.decision = decisionOf item ∧
  r.targetId = item.targetId ∧
  r.finalContent = item.finalContent ∧
  (r.finalVector.isSome = true ↔
    (r.decision = .UPDATE ∧ truthyContent r.finalContent = true)) ∧
  (∀ v, r.finalVector = some v →
    ∃ c, item.finalContent = some c ∧ c ≠ "" ∧ embed c = .ok v)

theorem processEvalItem_ok_spec (embed : String → Except PyErr (List Int))
    (item : ResultItem) (r : KnowledgeEvaluationResult) (calls : List String)
    (h : processEvalItem embed item = .ok (r, calls)) :
    evalEntrySpec embed item r ∧ calls = embedRequests item := by
  simp only [processEvalItem] at h
  cases hd : decisionOf item with
  | UPDATE =>
    cases hc : item.finalContent with
    | none =>
      simp only [hd, hc] at h
      simp only [Except.ok.injEq, Prod.mk.injEq] at h
      obtain ⟨hr, hcalls⟩ := h
      subst hr; subst hcalls
      refine ⟨⟨hd.symm, rfl, hc.symm, ?_, ?_⟩, ?_⟩
      · simp [hc, truthyContent]
      · intro v hv; simp at hv
      · simp [embedRequests, hd, hc]
    | some c =>
      simp only [hd, hc] at h
      by_cases hce : c = ""
      · rw [if_pos hce] at h
        simp only [Except.ok.injEq, Prod.mk.injEq] at h
        obtain ⟨hr, hcalls⟩ := h
        subst hr; subst hcalls
        refine ⟨⟨hd.symm, rfl, hc.symm, ?_, ?_⟩, ?_⟩
        · subst hce; simp [hc, truthyContent]
        · intro v hv; simp at hv
        · subst hce; simp [embedRequests, hd, hc]
      · rw [if_neg hce] at h
        cases hemb : embed c with
        | error e => rw [hemb] at h; simp at h
        | ok v =>
          rw [hemb] at h
          simp only [Except.ok.injEq, Prod.mk.injEq] at h
          obtain ⟨hr, hcalls⟩ := h
          subst hr; subst hcalls
          refine ⟨⟨hd.symm, rfl, hc.symm, ?_, ?_⟩, ?_⟩
          · simp [hd, hc, truthyContent, hce]
          · intro v' hv'
            simp only [Option.some.injEq] at hv'
            exact ⟨c, hc, hce, hv' ▸ hemb⟩
          · simp [embedRequests, hd, hc, hce]
  | IGNORE =>
    cases hc : item.finalContent with
    | none =>
      simp only [hd, hc] at h
      simp only [Except.ok.injEq, Prod.mk.injEq] at h
      obtain ⟨hr, hcalls⟩ := h
      subst hr; subst hcalls
      refine ⟨⟨hd.symm, rfl, hc.symm, ?_, ?_⟩, ?_⟩
      · simp [hd]
      · intro v hv; simp at hv
      · simp [embedRequests, hd, hc]
    | some c =>
      simp only [hd, hc] at h
      simp only [Except.ok.injEq, Prod.mk.injEq] at h
      obtain ⟨hr, hcalls⟩ := h
      subst hr; subst hcalls
      refine ⟨⟨hd.symm, rfl, hc.symm, ?_, ?_⟩, ?_⟩
      · simp [hd]
      · intro v hv; simp at hv
      · simp [embedRequests, hd, hc]

theorem processEvalResults_ok_spec (embed : String → Except PyErr (List Int)) :
    ∀ (items : List ResultItem) (rs : List KnowledgeEvaluationResult)
      (calls : List String),
      processEvalResults embed items = .ok (rs, calls) →
      List.Forall₂ (evalEntrySpec embed) items rs ∧
        calls = (items.map embedRequests).flatten := by
  intro items
  induction items with
  | nil =>
    intro rs calls h
    simp only [processEvalResults, Except.ok.injEq, Prod.mk.injEq] at h
    obtain ⟨hrs, hcalls⟩ := h
    subst hrs; subst hcalls
    exact ⟨List.Forall₂.nil, by simp⟩
  | cons item rest ih =>
    intro rs calls h
    simp only [processEvalResults] at h
    cases h1 : processEvalItem embed item with
    | error e => rw [h1] at h; simp at h
    | ok p =>
      obtain ⟨r, cs⟩ := p
      rw [h1] at h
      cases h2 : processEvalResults embed rest with
      | error e => simp only [h2] at h; simp at h
      | ok q =>
        obtain ⟨rs2, cs2⟩ := q
        simp only [h2, Except.ok.injEq, Prod.mk.injEq] at h
        obtain ⟨hrs, hcalls⟩ := h
        subst hrs; subst hcalls
        obtain ⟨hspec, hcs⟩ := processEvalItem_ok_spec embed item r cs h1
        obtain ⟨hf, hjoin⟩ := ih rs2 cs2 h2
        exact ⟨List.Forall₂.cons hspec hf, by simp [hcs, hjoin]⟩

/-! ## Sample inputs shared by witnesses and counterexamples -/

/-- A run environment in which both provider branches would succeed. -/
def envShortFullOk : RunEnv :=
  { scoring := .ok { overall_score := 80, level := 4 },
    feedback := .ok [("summarize", .s "good")],
    firstErrorScoring := true }

/-- A run environment in which both provider branches would succeed,
used for the missing-criteria counterexample. -/
def envLongOk : RunEnv :=
  { scoring := .ok { overall_score := 70, level := 3 },
    feedback := .ok [],
    firstErrorScoring := true }

/-- A run environment in which feedback generation raises and scoring
succeeds. -/
def envFeedbackFails : RunEnv :=
  { scoring := .ok { overall_score := 75, level := 3 },
    feedback := .error (.exc "Gemini API error 500"),
    firstErrorScoring := true }

/-- A run environment in which scoring raises and feedback succeeds. -/
def envScoringFails : RunEnv :=
  { scoring := .error (.exc "LLM timeout"),
    feedback := .ok [("summarize", .s "fb")],
    firstErrorScoring := true }

/-- The exception raised in `envScoringFails`. -/
def errScoring : PyErr := .exc "LLM timeout"

/-- A non-empty criteria dict. -/
def demoCriteria : JDict := [("focus", .s "clarity")]

/-- A candidate input for evaluation calls. -/
def demoCand : EvaluateCandidateInput := { text := "some candidate" }

/-- An evaluation environment whose provider response is unparseable. -/
def envUnparseable : EvalEnv :=
  { providerOutcome := .ok .unparseable, embed := fun _ => .ok [0] }

/-- An evaluation environment whose provider response parses with an empty
`results` array. -/
def envEmptyResults : EvalEnv :=
  { providerOutcome := .ok (.parsed []), embed := fun _ => .ok [0] }

/-- A parsed result entry with decision UPDATE and non-empty content. -/
def demoItemUpd : ResultItem :=
  { decision := some "UPDATE", targetId := some "1",
    finalContent := some "X", reasoning := some "merge" }

/-- A parsed result entry with decision IGNORE and content present. -/
def demoItemIgn : ResultItem :=
  { decision := some "IGNORE", targetId := some "2",
    finalContent := some "Y", reasoning := some "duplicate" }

/-- A parsed result entry with the unrecognized decision string MAYBE. -/
def demoItemMaybe : ResultItem :=
  { decision := some "MAYBE", targetId := some "7",
    finalContent := some "X", reasoning := some "unsure" }

/-- An evaluation environment whose provider returns the UPDATE entry and
the IGNORE entry, with a working embedding provider. -/
def envTwoEntries : EvalEnv :=
  { providerOutcome := .ok (.parsed [demoItemUpd, demoItemIgn]),
    embed := fun _ => .ok [1, 2] }

/-- An evaluation environment whose provider returns only the MAYBE entry
and whose embedding provider would raise if it were ever called. -/
def envMaybeEntry : EvalEnv :=
  { providerOutcome := .ok (.parsed [demoItemMaybe]),
    embed := fun _ => .error (.appExc .EMBEDDING_FAILURE
      "임베딩 생성 중 오류가 발생했습니다.") }

/-- A refinement environment in which every provider call succeeds. -/
def demoRefineEnv : RefineEnv :=
  { refineText := fun item => .ok (item.rawFeedback ++ " refined"),
    embed := fun _ => .ok [1] }

/-- An evaluation request whose candidate text has 5001 characters. -/
def longReq : KnowledgeEvaluationRequest :=
  { candidate := { text := String.replicate 5001 (Char.ofNat 97) },
    similars := [] }

/-- An evaluation request whose candidate text is short. -/
def shortReq : KnowledgeEvaluationRequest :=
  { candidate := { text := "short" }, similars := [] }

/-! ## Claims -/

/-- C1, as stated, is false on the code: the orchestrator validates
`criteria` before the short-text check, so with empty criteria and
`user_text = "hi"` (trimmed length 2 < 5) the terminal write has status
FAILED, not COMPLETED — even though both provider branches would have
succeeded and no provider call is made. -/
theorem C1_counterexample :
    ((pyStrip "hi").length < 5) ∧
    (analyze_text_background envShortFullOk "t1" "hi" [] []).writes.map
        TaskWrite.status = ["PROCESSING", "FAILED"] ∧
    (analyze_text_background envShortFullOk "t1" "hi" [] []).providerCalls = 0 :=
  ⟨by decide, by decide, by decide⟩

/-- C1 (amended): for every background run whose `criteria` dict is
non-empty and whose `user_text` has trimmed length < 5, the terminal
record is COMPLETED with exactly the fixed result (`overall_score = 0`,
`level = 1`, the canned feedback payload), with no reasoning- or
embedding-provider call made, regardless of the provider outcomes, the
criteria content and the history. -/
theorem C1_short_text_fast_path (env : RunEnv) (task_id user_text : String)
    (criteria : JDict) (history : List JDict)
    (hcr : criteria ≠ []) (hlen : (pyStrip user_text).length < 5) :
    analyze_text_background env task_id user_text criteria history =
      { writes := [{ task_id := task_id, status := "PROCESSING" },
                   { task_id := task_id, status := "COMPLETED",
                     result := some shortTextResult }],
        providerCalls := 0 } := by
  have h1 : criteria.isEmpty = false := isEmpty_false_of_ne_nil hcr
  simp [analyze_text_background, h1, hlen]

/-- Witness for C1: concrete short text with non-empty criteria. -/
theorem C1_short_text_fast_path_witness :
    (demoCriteria ≠ []) ∧ ((pyStrip "hi").length < 5) ∧
    analyze_text_background envShortFullOk "t0" "hi" demoCriteria [] =
      { writes := [{ task_id := "t0", status := "PROCESSING" },
                   { task_id := "t0", status := "COMPLETED",
                     result := some shortTextResult }],
        providerCalls := 0 } :=
  ⟨by decide, by decide,
    C1_short_text_fast_path envShortFullOk "t0" "hi" demoCriteria []
      (by decide) (by decide)⟩

/-- C2, as stated, is false on the code: the missing-criteria validation
failure is not surfaced synchronously — it is detected inside the
background run, after the task was already created, and a FAILED record
for it is written into the Task Store (with no provider call made). -/
theorem C2_counterexample :
    (analyze_text_background envLongOk "t2" "hello world" [] []).writes.map
        TaskWrite.status = ["PROCESSING", "FAILED"] ∧
    (analyze_text_background envLongOk "t2" "hello world" [] []).providerCalls = 0 :=
  ⟨by decide, by decide⟩

/-- C2 (amended): an empty batch and an oversized candidate text are
rejected synchronously by the knowledge endpoints, before the pipeline or
engine (and hence any provider) is invoked, and never touch the Task
Store; the missing-criteria validation, by contrast, happens inside the
orchestrator's background run and is written into the Task Store as a
terminal FAILED record, with no provider call made. -/
theorem C2_validation_surfacing :
    (∀ env : RefineEnv,
       refine_candidates_batch_endpoint env [] =
         ({ success := false,
            data := { processedCount := 0, candidates := [] },
            error := some { code := .EMPTY_BATCH_DATA,
                            message := "입력 데이터가 비어있습니다." } }, 0))
    ∧ (∀ (env : EvalEnv) (req : KnowledgeEvaluationRequest),
         5000 < req.candidate.text.length →
         (evaluate_knowledge_endpoint env req).2 = 0 ∧
         (evaluate_knowledge_endpoint env req).1.error =
           some { code := .TEXT_TOO_LONG,
                  message := "텍스트 길이가 제한을 초과했습니다." })
    ∧ (∀ (env : RunEnv) (tid txt : String) (hist : List JDict),
         (analyze_text_background env tid txt [] hist).writes.map
             TaskWrite.status = ["PROCESSING", "FAILED"] ∧
         (analyze_text_background env tid txt [] hist).providerCalls = 0) := by
  refine ⟨fun env => rfl, fun env req h => ?_, fun env tid txt hist => ?_⟩
  · have h' : req.candidate.text.length > 5000 := h
    constructor <;> simp [evaluate_knowledge_endpoint, h']
  · constructor <;> simp [analyze_text_background]

/-- Witness for C2 (amended): the three branches at concrete inputs. -/
theorem C2_validation_surfacing_witness :
    (refine_candidates_batch_endpoint demoRefineEnv [] =
       ({ success := false,
          data := { processedCount := 0, candidates := [] },
          error := some { code := .EMPTY_BATCH_DATA,
                          message := "입력 데이터가 비어있습니다." } }, 0))
    ∧ (5000 < longReq.candidate.text.length ∧
       (evaluate_knowledge_endpoint envEmptyResults longReq).2 = 0 ∧
       (evaluate_knowledge_endpoint envEmptyResults longReq).1.error =
         some { code := .TEXT_TOO_LONG,
                message := "텍스트 길이가 제한을 초과했습니다." })
    ∧ ((analyze_text_background envLongOk "t2b" "hello world" [] []).writes.map
           TaskWrite.status = ["PROCESSING", "FAILED"] ∧
       (analyze_text_background envLongOk "t2b" "hello world" [] []).providerCalls = 0) := by
  have hlen : 5000 < longReq.candidate.text.length := by
    simp [longReq]
  exact ⟨C2_validation_surfacing.1 demoRefineEnv,
    ⟨hlen, C2_validation_surfacing.2.1 envEmptyResults longReq hlen⟩,
    C2_validation_surfacing.2.2 envLongOk "t2b" "hello world" []⟩

/-- C3: whenever exactly one of the two concurrent branches (scoring,
feedback) raises and the other succeeds, the terminal write is FAILED
with an error record and carries no result — never a partial COMPLETED
aggregate built from the successful branch alone. -/
theorem C3_single_branch_failure_fails (env : RunEnv) (tid txt : String)
    (cr : JDict) (hist : List JDict)
    (hcr : cr ≠ []) (hlen : ¬ (pyStrip txt).length < 5)
    (hone : ((∃ s, env.scoring = .ok s) ∧ ∃ e, env.feedback = .error e) ∨
            ((∃ e, env.scoring = .error e) ∧ ∃ f, env.feedback = .ok f)) :
    ∃ err : TaskError,
      (analyze_text_background env tid txt cr hist).writes =
        [{ task_id := tid, status := "PROCESSING" },
         { task_id := tid, status := "FAILED", error := some err }] := by
  have h1 : cr.isEmpty = false := isEmpty_false_of_ne_nil hcr
  rcases hone with ⟨⟨s, hs⟩, ⟨e, he⟩⟩ | ⟨⟨e, hs⟩, ⟨f, hf⟩⟩
  · refine ⟨{ code := classifyError e,
              message := failureMessage (classifyError e) }, ?_⟩
    simp [analyze_text_background, h1, hlen, gatherOutcome, hs, he]
  · refine ⟨{ code := classifyError e,
              message := failureMessage (classifyError e) }, ?_⟩
    simp [analyze_text_background, h1, hlen, gatherOutcome, hs, hf]

/-- Witness for C3: scoring succeeds, feedback raises. -/
theorem C3_single_branch_failure_fails_witness :
    (demoCriteria ≠ []) ∧ ¬ (pyStrip "hello world").length < 5 ∧
    ∃ err : TaskError,
      (analyze_text_background envFeedbackFails "t3" "hello world"
          demoCriteria []).writes =
        [{ task_id := "t3", status := "PROCESSING" },
         { task_id := "t3", status := "FAILED", error := some err }] :=
  ⟨by decide, by decide,
    C3_single_branch_failure_fails envFeedbackFails "t3" "hello world" demoCriteria []
      (by decide) (by decide)
      (Or.inl ⟨⟨{ overall_score := 75, level := 3 }, rfl⟩,
               ⟨.exc "Gemini API error 500", rfl⟩⟩)⟩

/-- C5: for a batch of N items of which M fail refinement or embedding,
the pipeline returns `processedCount = N - M` and exactly N - M
candidates, each obtained from one succeeding item; a per-item failure
never raises (the model's total return type reflects the per-item
`try/except` containment in the source). -/
theorem C5_item_failures_dropped (env : RefineEnv)
    (items : List RawFeedbackItem) :
    (refine_candidates_batch env items).processedCount =
        items.length - failCount env items ∧
    (refine_candidates_batch env items).candidates.length =
        items.length - failCount env items ∧
    (refine_candidates_batch env items).candidates =
        items.filterMap (process_item env) := by
  have hmap : (items.map (process_item env)).filterMap id =
      items.filterMap (process_item env) := by
    simp [List.filterMap_map]
  have key := refine_length_aux (process_item env) items
  refine ⟨?_, ?_, ?_⟩
  · simp only [refine_candidates_batch, hmap, failCount]
    omega
  · simp only [refine_candidates_batch, hmap, failCount]
    omega
  · simp only [refine_candidates_batch, hmap]

/-- C9: the output candidates keep the relative order of their source
items — the sequence of output candidate ids is exactly the input id
sequence restricted to the items whose per-item pipeline succeeded. -/
theorem C9_order_preserved (env : RefineEnv) (items : List RawFeedbackItem) :
    (refine_candidates_batch env items).candidates.map KnowledgeCandidate.id =
      (items.filter fun i => (process_item env i).isSome).map
        RawFeedbackItem.id := by
  have hmap : (items.map (process_item env)).filterMap id =
      items.filterMap (process_item env) := by
    simp [List.filterMap_map]
  simp only [refine_candidates_batch, hmap]
  exact refine_ids_aux env items

/-- C8: every failure caught by the orchestrator's handler is written with
the fixed generic message template determined only by the classified
code: the terminal record's message is `failureMessage (classifyError e)`,
any two exceptions classified alike get the identical message, and the
classifier only ever yields one of three codes, so the stored message is
always one of three fixed strings that do not depend on the exception
text. -/
theorem C8_generic_failure_messages (env : RunEnv) (tid txt : String)
    (cr : JDict) (hist : List JDict) (e : PyErr)
    (hcr : cr ≠ []) (hlen : ¬ (pyStrip txt).length < 5)
    (hg : gatherOutcome env = .error e) :
    (analyze_text_background env tid txt cr hist).writes.getLast? =
        some { task_id := tid, status := "FAILED",
               error := some { code := classifyError e,
                               message := failureMessage (classifyError e) } }
    ∧ (∀ e₁ e₂ : PyErr, classifyError e₁ = classifyError e₂ →
         failureMessage (classifyError e₁) = failureMessage (classifyError e₂))
    ∧ (classifyError e = .LLM_PROVIDER_ERROR ∨
       classifyError e = .EMBEDDING_FAILURE ∨
       classifyError e = .INTERNAL_ERROR) := by
  have h1 : cr.isEmpty = false := isEmpty_false_of_ne_nil hcr
  refine ⟨?_, ?_, ?_⟩
  · simp [analyze_text_background, h1, hlen, hg]
  · intro e₁ e₂ h
    rw [h]
  · simp only [classifyError]
    split
    · exact Or.inl rfl
    · split
      · exact Or.inr (Or.inl rfl)
      · exact Or.inr (Or.inr rfl)

/-- Witness for C8: scoring raises with text mentioning LLM. -/
theorem C8_generic_failure_messages_witness :
    (demoCriteria ≠ []) ∧ (¬ (pyStrip "hello world").length < 5) ∧
    gatherOutcome envScoringFails = .error errScoring ∧
    ((analyze_text_background envScoringFails "t8" "hello world"
          demoCriteria []).writes.getLast? =
        some { task_id := "t8", status := "FAILED",
               error := some { code := classifyError errScoring,
                               message := failureMessage (classifyError errScoring) } }
     ∧ (∀ e₁ e₂ : PyErr, classifyError e₁ = classifyError e₂ →
          failureMessage (classifyError e₁) = failureMessage (classifyError e₂))
     ∧ (classifyError errScoring = .LLM_PROVIDER_ERROR ∨
        classifyError errScoring = .EMBEDDING_FAILURE ∨
        classifyError errScoring = .INTERNAL_ERROR)) :=
  ⟨by decide, by decide, rfl,
    C8_generic_failure_messages envScoringFails "t8" "hello world"
      demoCriteria [] errScoring (by decide) (by decide) rfl⟩

/-- C4: in every successful evaluation, each emitted entry has
`finalVector` present iff its decision is UPDATE and its `finalContent`
is non-empty (so an IGNORE entry has no vector even when content is
present), every present vector is the embedding provider's output on that
entry's `finalContent`, and the embedding calls actually made are exactly
those for UPDATE entries with truthy content — none for the others. -/
theorem C4_final_vector_iff_update (env : EvalEnv)
    (cand : EvaluateCandidateInput) (sims : List EvaluateSimilarInput)
    (items : List ResultItem) (batch : BatchKnowledgeEvaluationResult)
    (calls : List String)
    (hp : env.providerOutcome = .ok (.parsed items))
    (he : evaluate_knowledge env cand sims = .ok (batch, calls)) :
    List.Forall₂ (evalEntrySpec env.embed) items batch.results ∧
      calls = (items.map embedRequests).flatten := by
  cases items with
  | nil =>
    simp only [evaluate_knowledge, hp, List.isEmpty_nil, if_true,
      Except.ok.injEq, Prod.mk.injEq] at he
    obtain ⟨hb, hc⟩ := he
    subst hc
    refine ⟨?_, by simp⟩
    rw [← hb]
    exact List.Forall₂.nil
  | cons i rest =>
    simp only [evaluate_knowledge, hp] at he
    rw [if_neg (by simp)] at he
    cases hres : processEvalResults env.embed (i :: rest) with
    | error e => rw [hres] at he; simp at he
    | ok p =>
      obtain ⟨rs, cs⟩ := p
      rw [hres] at he
      simp only [Except.ok.injEq, Prod.mk.injEq] at he
      obtain ⟨hb, hc⟩ := he
      subst hc
      obtain ⟨hf, hjoin⟩ :=
        processEvalResults_ok_spec env.embed (i :: rest) rs cs hres
      refine ⟨?_, hjoin⟩
      rw [← hb]
      exact hf

/-- Witness for C4: one UPDATE entry with non-empty content (embedded)
followed by one IGNORE entry with content present (not embedded). -/
theorem C4_final_vector_iff_update_witness :
    envTwoEntries.providerOutcome = .ok (.parsed [demoItemUpd, demoItemIgn]) ∧
    evaluate_knowledge envTwoEntries demoCand [] =
      .ok ({ results :=
              [{ decision := .UPDATE, targetId := some "1",
                 finalContent := some "X", finalVector := some [1, 2],
                 reasoning := "merge" },
               { decision := .IGNORE, targetId := some "2",
                 finalContent := some "Y", finalVector := none,
                 reasoning := "duplicate" }] }, ["X"]) ∧
    (List.Forall₂ (evalEntrySpec envTwoEntries.embed)
        [demoItemUpd, demoItemIgn]
        ({ results :=
            [{ decision := .UPDATE, targetId := some "1",
               finalContent := some "X", finalVector := some [1, 2],
               reasoning := "merge" },
             { decision := .IGNORE, targetId := some "2",
               finalContent := some "Y", finalVector := none,
               reasoning := "duplicate" }] } :
          BatchKnowledgeEvaluationResult).results ∧
      ["X"] = ([demoItemUpd, demoItemIgn].map embedRequests).flatten) :=
  ⟨rfl, by rfl,
    C4_final_vector_iff_update envTwoEntries demoCand []
      [demoItemUpd, demoItemIgn] _ _ rfl (by rfl)⟩

/-- C6: a provider response that cannot be parsed as JSON makes the whole
evaluation fail with the INVALID_LLM_RESPONSE condition, yielding no
partial results, while a parseable response whose `results` array is
empty yields an empty batch as a success. -/
theorem C6_parse_failure_vs_empty (env : EvalEnv)
    (cand : EvaluateCandidateInput) (sims : List EvaluateSimilarInput) :
    (env.providerOutcome = .ok .unparseable →
       evaluate_knowledge env cand sims =
         .error (.exc "INVALID_LLM_RESPONSE"))
    ∧ (env.providerOutcome = .ok (.parsed []) →
       evaluate_knowledge env cand sims = .ok ({ results := [] }, [])) := by
  constructor
  · intro h
    simp [evaluate_knowledge, h]
  · intro h
    simp [evaluate_knowledge, h]

/-- Witness for C6: the two provider responses at concrete environments. -/
theorem C6_parse_failure_vs_empty_witness :
    (envUnparseable.providerOutcome = .ok .unparseable ∧
     evaluate_knowledge envUnparseable demoCand [] =
       .error (.exc "INVALID_LLM_RESPONSE"))
    ∧ (envEmptyResults.providerOutcome = .ok (.parsed []) ∧
       evaluate_knowledge envEmptyResults demoCand [] =
         .ok ({ results := [] }, [])) :=
  ⟨⟨rfl, (C6_parse_failure_vs_empty envUnparseable demoCand []).1 rfl⟩,
   ⟨rfl, (C6_parse_failure_vs_empty envEmptyResults demoCand []).2 rfl⟩⟩

/-- C7: a parsed entry whose decision string lies outside
{UPDATE, IGNORE} is coerced to IGNORE and still emitted as a valid entry
(with no embedding call made for it); the unrecognized string never makes
the evaluation fail. -/
theorem C7_unknown_decision_coerced (env : EvalEnv)
    (cand : EvaluateCandidateInput) (sims : List EvaluateSimilarInput)
    (item : ResultItem) (s : String)
    (hdec : item.decision = some s) (hneU : s ≠ "UPDATE")
    (hneI : s ≠ "IGNORE")
    (hp : env.providerOutcome = .ok (.parsed [item])) :
    evaluate_knowledge env cand sims =
      .ok ({ results :=
              [{ decision := .IGNORE, targetId := item.targetId,
                 finalContent := item.finalContent, finalVector := none,
                 reasoning := item.reasoning.getD "" }] }, []) := by
  have hd : decisionOf item = .IGNORE := by
    unfold decisionOf
    rw [hdec]
    simp [Option.getD, KnowledgeAction.ofValue?, hneU, hneI]
  simp only [evaluate_knowledge, hp]
  rw [if_neg (by simp)]
  cases hc : item.finalContent with
  | none =>
    simp [processEvalResults, processEvalItem, hd, hc]
  | some c =>
    simp [processEvalResults, processEvalItem, hd, hc]

/-- Witness for C7: the decision string MAYBE, with an embedding provider
that would raise if it were called. -/
theorem C7_unknown_decision_coerced_witness :
    demoItemMaybe.decision = some "MAYBE" ∧
    ("MAYBE" ≠ "UPDATE") ∧ ("MAYBE" ≠ "IGNORE") ∧
    envMaybeEntry.providerOutcome = .ok (.parsed [demoItemMaybe]) ∧
    evaluate_knowledge envMaybeEntry demoCand [] =
      .ok ({ results :=
              [{ decision := .IGNORE, targetId := demoItemMaybe.targetId,
                 finalContent := demoItemMaybe.finalContent,
                 finalVector := none,
                 reasoning := demoItemMaybe.reasoning.getD "" }] }, []) :=
  ⟨rfl, by decide, by decide, rfl,
    C7_unknown_decision_coerced envMaybeEntry demoCand [] demoItemMaybe
      "MAYBE" rfl (by decide) (by decide) rfl⟩

/-- C10: a request whose candidate text exceeds 5000 characters is
answered synchronously with the fixed TEXT_TOO_LONG failure payload
(success = false, placeholder IGNORE result) and the evaluation engine —
hence any provider — is never invoked; a request at most 5000 characters
long passes this check and the engine is invoked exactly once. -/
theorem C10_text_too_long_guard (env : EvalEnv)
    (req : KnowledgeEvaluationRequest) :
    (5000 < req.candidate.text.length →
       evaluate_knowledge_endpoint env req =
         ({ success := false,
            data := .single { decision := .IGNORE, targetId := none,
                              finalContent := none, finalVector := none,
                              reasoning := "Validation Failed" },
            error := some { code := .TEXT_TOO_LONG,
                            message := "텍스트 길이가 제한을 초과했습니다." } }, 0))
    ∧ (req.candidate.text.length ≤ 5000 →
       (evaluate_knowledge_endpoint env req).2 = 1) := by
  constructor
  · intro h
    have h' : req.candidate.text.length > 5000 := h
    simp [evaluate_knowledge_endpoint, h']
  · intro h
    have h' : ¬ req.candidate.text.length > 5000 := by omega
    unfold evaluate_knowledge_endpoint
    rw [if_neg h']
    split <;> rfl

/-- Witness for C10: a 5001-character candidate is rejected without an
engine call; a short candidate reaches the engine. -/
theorem C10_text_too_long_guard_witness :
    (5000 < longReq.candidate.text.length ∧
     evaluate_knowledge_endpoint envEmptyResults longReq =
       ({ success := false,
          data := .single { decision := .IGNORE, targetId := none,
                            finalContent := none, finalVector := none,
                            reasoning := "Validation Failed" },
          error := some { code := .TEXT_TOO_LONG,
                          message := "텍스트 길이가 제한을 초과했습니다." } }, 0))
    ∧ (shortReq.candidate.text.length ≤ 5000 ∧
       (evaluate_knowledge_endpoint envEmptyResults shortReq).2 = 1) := by
  have hlen : 5000 < longReq.candidate.text.length := by
    simp [longReq]
  exact ⟨⟨hlen,
      (C10_text_too_long_guard envEmptyResults longReq).1 hlen⟩,
    ⟨by decide,
      (C10_text_too_long_guard envEmptyResults shortReq).2 (by decide)⟩⟩

end AIServer
